import Mathlib

/-!
Verification of the gravity forward-model core of the `gravity_model_webapp`
repository.  The definitions below are a shallow embedding, over the real
numbers, of the Rust code in `src/gravity_objects/mod.rs`, `src/model.rs`
and the aggregation loop of `src/app.rs`:

* `Vec3` / `Mat3` model the `ndarray` 1-D and 2-D arrays of length 3 used by
  the source, with `Vec3.vecMul` reproducing ndarray's row-vector
  `1d.dot(2d)` product.
* `rotation_matrix_x/y/z` are the literal matrices built by the functions of
  the same names in the source.
* `Sphere` and `Cuboid` carry the same fields as the Rust structs, and each
  field method (`gx`, ..., `gzz`, `g`, `gg`, `calculate`) is translated
  expression-by-expression from its Rust body.  Division by zero in the
  embedding follows Lean's convention (`a / 0 = 0`); the claims settled here
  do not depend on behaviour at those measure-zero degenerate inputs except
  where explicitly hypothesised.

Definitions whose names start with `spec` are NOT translated from the code:
they transcribe the natural-language specification, and the theorems compare
the two.
-/

noncomputable section

/-- Gravitational constant as in the source: `const G: f64 = 6.674e-11`. -/
def gravG : ℝ := 6.674e-11

/-- 3-vector of reals, modelling `Array1<f64>` of length 3. -/
@[ext]
structure Vec3 where
  x : ℝ
  y : ℝ
  z : ℝ

/-- 3×3 real matrix, modelling `Array2<f64>` of shape (3,3). -/
@[ext]
structure Mat3 where
  m00 : ℝ
  m01 : ℝ
  m02 : ℝ
  m10 : ℝ
  m11 : ℝ
  m12 : ℝ
  m20 : ℝ
  m21 : ℝ
  m22 : ℝ

def Vec3.add (a b : Vec3) : Vec3 := ⟨a.x + b.x, a.y + b.y, a.z + b.z⟩

def Vec3.sub (a b : Vec3) : Vec3 := ⟨a.x - b.x, a.y - b.y, a.z - b.z⟩

/-- Matrix product, modelling `ndarray`'s `2d.dot(2d)`. -/
def Mat3.mul (A B : Mat3) : Mat3 :=
  ⟨A.m00 * B.m00 + A.m01 * B.m10 + A.m02 * B.m20,
   A.m00 * B.m01 + A.m01 * B.m11 + A.m02 * B.m21,
   A.m00 * B.m02 + A.m01 * B.m12 + A.m02 * B.m22,
   A.m10 * B.m00 + A.m11 * B.m10 + A.m12 * B.m20,
   A.m10 * B.m01 + A.m11 * B.m11 + A.m12 * B.m21,
   A.m10 * B.m02 + A.m11 * B.m12 + A.m12 * B.m22,
   A.m20 * B.m00 + A.m21 * B.m10 + A.m22 * B.m20,
   A.m20 * B.m01 + A.m21 * B.m11 + A.m22 * B.m21,
   A.m20 * B.m02 + A.m21 * B.m12 + A.m22 * B.m22⟩

def Mat3.transpose (A : Mat3) : Mat3 :=
  ⟨A.m00, A.m10, A.m20, A.m01, A.m11, A.m21, A.m02, A.m12, A.m22⟩

/-- Column action `A · v`. -/
def Mat3.mulVec (A : Mat3) (v : Vec3) : Vec3 :=
  ⟨A.m00 * v.x + A.m01 * v.y + A.m02 * v.z,
   A.m10 * v.x + A.m11 * v.y + A.m12 * v.z,
   A.m20 * v.x + A.m21 * v.y + A.m22 * v.z⟩

/-- Row action `v · A`, modelling `ndarray`'s `1d.dot(2d)`. -/
def Vec3.vecMul (v : Vec3) (A : Mat3) : Vec3 :=
  ⟨v.x * A.m00 + v.y * A.m10 + v.z * A.m20,
   v.x * A.m01 + v.y * A.m11 + v.z * A.m21,
   v.x * A.m02 + v.y * A.m12 + v.z * A.m22⟩

/-- `rotation_matrix_x` from the source, row for row. -/
def rotation_matrix_x (angle : ℝ) : Mat3 :=
  ⟨1, 0, 0,
   0, Real.cos angle, Real.sin angle,
   0, -Real.sin angle, Real.cos angle⟩

/-- `rotation_matrix_y` from the source, row for row. -/
def rotation_matrix_y (angle : ℝ) : Mat3 :=
  ⟨Real.cos angle, 0, -Real.sin angle,
   0, 1, 0,
   Real.sin angle, 0, Real.cos angle⟩

/-- `rotation_matrix_z` from the source, row for row. -/
def rotation_matrix_z (angle : ℝ) : Mat3 :=
  ⟨Real.cos angle, Real.sin angle, 0,
   -Real.sin angle, Real.cos angle, 0,
   0, 0, 1⟩

/-- The `DataType` enum of the source. -/
inductive DataType where
  | Gx | Gy | Gz | Gxx | Gxy | Gxz | Gyy | Gyz | Gzz
  deriving DecidableEq

/-- Per-`DataType` output scaling from `calculate`:
`Gx | Gy | Gz => -1E8, _ => 1E9`. -/
def scaling : DataType → ℝ
  | DataType.Gx | DataType.Gy | DataType.Gz => -1e8
  | _ => 1e9

/-- The `Sphere` struct of the source. -/
structure Sphere where
  x_centroid : ℝ
  y_centroid : ℝ
  z_centroid : ℝ
  radius : ℝ
  density : ℝ

def Sphere.centre (s : Sphere) : Vec3 := ⟨s.x_centroid, s.y_centroid, s.z_centroid⟩

/-- `p_dash = position * (1. + 1e-7) - v`, the corner/centre-relative offset
computed at the top of every field method. -/
def pdash (position v : Vec3) : Vec3 :=
  ⟨position.x * (1 + 1e-7) - v.x,
   position.y * (1 + 1e-7) - v.y,
   position.z * (1 + 1e-7) - v.z⟩

/-- `r = p_dash.mapv(|p| p.powi(2)).sum()` of the sphere methods
(the squared length; the sphere code takes no square root). -/
def sqsum (d : Vec3) : ℝ := d.x ^ 2 + d.y ^ 2 + d.z ^ 2

/-- `r = p_dash.mapv(|p| p.powi(2)).sum().sqrt()` of the cuboid methods. -/
def rnorm (d : Vec3) : ℝ := Real.sqrt (d.x ^ 2 + d.y ^ 2 + d.z ^ 2)

/-- `constant = -(4./3.) * PI * G * radius^3 * density` of the sphere methods. -/
def Sphere.constant (s : Sphere) : ℝ :=
  -(4 / 3) * Real.pi * gravG * s.radius ^ 3 * s.density

def Sphere.gx (s : Sphere) (position : Vec3) : ℝ :=
  s.constant * (pdash position s.centre).x / sqsum (pdash position s.centre) ^ ((3 : ℝ) / 2)

def Sphere.gy (s : Sphere) (position : Vec3) : ℝ :=
  s.constant * (pdash position s.centre).y / sqsum (pdash position s.centre) ^ ((3 : ℝ) / 2)

def Sphere.gz (s : Sphere) (position : Vec3) : ℝ :=
  s.constant * (pdash position s.centre).z / sqsum (pdash position s.centre) ^ ((3 : ℝ) / 2)

def Sphere.gxx (s : Sphere) (position : Vec3) : ℝ :=
  s.constant / sqsum (pdash position s.centre) ^ ((3 : ℝ) / 2) *
    (1 - 3 * (pdash position s.centre).x ^ 2 / sqsum (pdash position s.centre))

def Sphere.gyy (s : Sphere) (position : Vec3) : ℝ :=
  s.constant / sqsum (pdash position s.centre) ^ ((3 : ℝ) / 2) *
    (1 - 3 * (pdash position s.centre).y ^ 2 / sqsum (pdash position s.centre))

def Sphere.gzz (s : Sphere) (position : Vec3) : ℝ :=
  s.constant / sqsum (pdash position s.centre) ^ ((3 : ℝ) / 2) *
    (1 - 3 * (pdash position s.centre).z ^ 2 / sqsum (pdash position s.centre))

/-- Source `Sphere::gxy`: note the numerator really is `y * z` in the code. -/
def Sphere.gxy (s : Sphere) (position : Vec3) : ℝ :=
  -3 * s.constant * (pdash position s.centre).y * (pdash position s.centre).z /
    sqsum (pdash position s.centre) ^ ((5 : ℝ) / 2)

def Sphere.gxz (s : Sphere) (position : Vec3) : ℝ :=
  -3 * s.constant * (pdash position s.centre).x * (pdash position s.centre).z /
    sqsum (pdash position s.centre) ^ ((5 : ℝ) / 2)

def Sphere.gyz (s : Sphere) (position : Vec3) : ℝ :=
  -3 * s.constant * (pdash position s.centre).y * (pdash position s.centre).z /
    sqsum (pdash position s.centre) ^ ((5 : ℝ) / 2)

def Sphere.volume (s : Sphere) : ℝ := 4 / 3 * Real.pi * s.radius ^ 3

def Sphere.mass (s : Sphere) : ℝ := s.density * s.volume

/-- The per-point body of `Sphere::calculate` before the final
`data * scaling` step: dispatch on the data type. -/
def Sphere.rawPoint (s : Sphere) (data_type : DataType) (position : Vec3) : ℝ :=
  match data_type with
  | DataType.Gx => s.gx position
  | DataType.Gy => s.gy position
  | DataType.Gz => s.gz position
  | DataType.Gxx => s.gxx position
  | DataType.Gxy => s.gxy position
  | DataType.Gxz => s.gxz position
  | DataType.Gyy => s.gyy position
  | DataType.Gyz => s.gyz position
  | DataType.Gzz => s.gzz position

/-- `Sphere::calculate` restricted to one observation point: the source
accumulates `rawPoint` into `data[i]` and returns `data * scaling`. -/
def Sphere.calculatePoint (s : Sphere) (data_type : DataType) (position : Vec3) : ℝ :=
  s.rawPoint data_type position * scaling data_type

/-- The `Cuboid` struct of `src/gravity_objects/mod.rs`. -/
structure Cuboid where
  x_length : ℝ
  y_length : ℝ
  z_length : ℝ
  x_centroid : ℝ
  y_centroid : ℝ
  z_centroid : ℝ
  x_rotation : ℝ
  y_rotation : ℝ
  z_rotation : ℝ
  density : ℝ

/-- `Cuboid::new_from_lengths`: builds the struct from the ten arguments,
with no validation of any of them. -/
def Cuboid.new_from_lengths (x_length y_length z_length x_centroid y_centroid z_centroid
    x_rotation y_rotation z_rotation density : ℝ) : Cuboid :=
  ⟨x_length, y_length, z_length, x_centroid, y_centroid, z_centroid,
   x_rotation, y_rotation, z_rotation, density⟩

def Cuboid.centre (c : Cuboid) : Vec3 := ⟨c.x_centroid, c.y_centroid, c.z_centroid⟩

/-- `Cuboid::index_order`: `[1., -1., 1., -1., -1., 1., -1., 1.]`. -/
def Cuboid.index_order : Fin 8 → ℝ
  | 0 => 1
  | 1 => -1
  | 2 => 1
  | 3 => -1
  | 4 => -1
  | 5 => 1
  | 6 => -1
  | 7 => 1

/-- `Cuboid::vertices_axis_aligned`, row for row. -/
def Cuboid.vertices_axis_aligned (c : Cuboid) : Fin 8 → Vec3
  | 0 => ⟨c.x_centroid - c.x_length / 2, c.y_centroid - c.y_length / 2,
          c.z_centroid - c.z_length / 2⟩
  | 1 => ⟨c.x_centroid - c.x_length / 2, c.y_centroid - c.y_length / 2,
          c.z_centroid + c.z_length / 2⟩
  | 2 => ⟨c.x_centroid - c.x_length / 2, c.y_centroid + c.y_length / 2,
          c.z_centroid + c.z_length / 2⟩
  | 3 => ⟨c.x_centroid - c.x_length / 2, c.y_centroid + c.y_length / 2,
          c.z_centroid - c.z_length / 2⟩
  | 4 => ⟨c.x_centroid + c.x_length / 2, c.y_centroid - c.y_length / 2,
          c.z_centroid - c.z_length / 2⟩
  | 5 => ⟨c.x_centroid + c.x_length / 2, c.y_centroid + c.y_length / 2,
          c.z_centroid - c.z_length / 2⟩
  | 6 => ⟨c.x_centroid + c.x_length / 2, c.y_centroid + c.y_length / 2,
          c.z_centroid + c.z_length / 2⟩
  | 7 => ⟨c.x_centroid + c.x_length / 2, c.y_centroid - c.y_length / 2,
          c.z_centroid + c.z_length / 2⟩

/-- Loop body of `Cuboid::gx` at vertex `i`. -/
def Cuboid.gxTerm (c : Cuboid) (position : Vec3) (i : Fin 8) : ℝ :=
  Cuboid.index_order i *
    ((pdash position (c.vertices_axis_aligned i)).y *
        Real.log (rnorm (pdash position (c.vertices_axis_aligned i)) +
          (pdash position (c.vertices_axis_aligned i)).z) +
      (pdash position (c.vertices_axis_aligned i)).z *
        Real.log (rnorm (pdash position (c.vertices_axis_aligned i)) +
          (pdash position (c.vertices_axis_aligned i)).y) -
      (pdash position (c.vertices_axis_aligned i)).x *
        Real.arctan ((pdash position (c.vertices_axis_aligned i)).y *
            (pdash position (c.vertices_axis_aligned i)).z /
          (rnorm (pdash position (c.vertices_axis_aligned i)) *
            (pdash position (c.vertices_axis_aligned i)).x)))

/-- Loop body of `Cuboid::gy` at vertex `i`. -/
def Cuboid.gyTerm (c : Cuboid) (position : Vec3) (i : Fin 8) : ℝ :=
  Cuboid.index_order i *
    ((pdash position (c.vertices_axis_aligned i)).z *
        Real.log (rnorm (pdash position (c.vertices_axis_aligned i)) +
          (pdash position (c.vertices_axis_aligned i)).x) +
      (pdash position (c.vertices_axis_aligned i)).x *
        Real.log (rnorm (pdash position (c.vertices_axis_aligned i)) +
          (pdash position (c.vertices_axis_aligned i)).z) -
      (pdash position (c.vertices_axis_aligned i)).y *
        Real.arctan ((pdash position (c.vertices_axis_aligned i)).x *
            (pdash position (c.vertices_axis_aligned i)).z /
          (rnorm (pdash position (c.vertices_axis_aligned i)) *
            (pdash position (c.vertices_axis_aligned i)).y)))

/-- Loop body of `Cuboid::gz` at vertex `i`. -/
def Cuboid.gzTerm (c : Cuboid) (position : Vec3) (i : Fin 8) : ℝ :=
  Cuboid.index_order i *
    ((pdash position (c.vertices_axis_aligned i)).x *
        Real.log (rnorm (pdash position (c.vertices_axis_aligned i)) +
          (pdash position (c.vertices_axis_aligned i)).y) +
      (pdash position (c.vertices_axis_aligned i)).y *
        Real.log (rnorm (pdash position (c.vertices_axis_aligned i)) +
          (pdash position (c.vertices_axis_aligned i)).x) -
      (pdash position (c.vertices_axis_aligned i)).z *
        Real.arctan ((pdash position (c.vertices_axis_aligned i)).x *
            (pdash position (c.vertices_axis_aligned i)).y /
          (rnorm (pdash position (c.vertices_axis_aligned i)) *
            (pdash position (c.vertices_axis_aligned i)).z)))

/-- `Cuboid::gx`: the loop accumulates `gxTerm` over the eight vertices and
the method returns `gx * G * density`. -/
def Cuboid.gx (c : Cuboid) (position : Vec3) : ℝ :=
  (∑ i : Fin 8, c.gxTerm position i) * gravG * c.density

/-- `Cuboid::gy`. -/
def Cuboid.gy (c : Cuboid) (position : Vec3) : ℝ :=
  (∑ i : Fin 8, c.gyTerm position i) * gravG * c.density

/-- `Cuboid::gz`. -/
def Cuboid.gz (c : Cuboid) (position : Vec3) : ℝ :=
  (∑ i : Fin 8, c.gzTerm position i) * gravG * c.density

/-- `Cuboid::g`: same three accumulations into a vector, times `G * density`. -/
def Cuboid.g (c : Cuboid) (position : Vec3) : Vec3 :=
  ⟨(∑ i : Fin 8, c.gxTerm position i) * gravG * c.density,
   (∑ i : Fin 8, c.gyTerm position i) * gravG * c.density,
   (∑ i : Fin 8, c.gzTerm position i) * gravG * c.density⟩

/-- Loop accumulation into `gg[[0,0]]` (also the loop body of `Cuboid::gxx`):
`sign * -((y * z) / (r * x)).atan()`. -/
def Cuboid.sxx (c : Cuboid) (position : Vec3) : ℝ :=
  ∑ i : Fin 8, Cuboid.index_order i *
    -Real.arctan ((pdash position (c.vertices_axis_aligned i)).y *
        (pdash position (c.vertices_axis_aligned i)).z /
      (rnorm (pdash position (c.vertices_axis_aligned i)) *
        (pdash position (c.vertices_axis_aligned i)).x))

/-- Loop accumulation into `gg[[1,1]]` (also the loop body of `Cuboid::gyy`):
`sign * -((x * z) / (r * y)).atan()`. -/
def Cuboid.syy (c : Cuboid) (position : Vec3) : ℝ :=
  ∑ i : Fin 8, Cuboid.index_order i *
    -Real.arctan ((pdash position (c.vertices_axis_aligned i)).x *
        (pdash position (c.vertices_axis_aligned i)).z /
      (rnorm (pdash position (c.vertices_axis_aligned i)) *
        (pdash position (c.vertices_axis_aligned i)).y))

/-- Loop accumulation into `gg[[2,2]]` (also the loop body of `Cuboid::gzz`):
`sign * -((y * x) / (r * z)).atan()`. -/
def Cuboid.szz (c : Cuboid) (position : Vec3) : ℝ :=
  ∑ i : Fin 8, Cuboid.index_order i *
    -Real.arctan ((pdash position (c.vertices_axis_aligned i)).y *
        (pdash position (c.vertices_axis_aligned i)).x /
      (rnorm (pdash position (c.vertices_axis_aligned i)) *
        (pdash position (c.vertices_axis_aligned i)).z))

/-- Loop accumulation into `gg[[0,1]]` (also the loop body of `Cuboid::gxy`):
`sign * (r + z).ln()`. -/
def Cuboid.sxy (c : Cuboid) (position : Vec3) : ℝ :=
  ∑ i : Fin 8, Cuboid.index_order i *
    Real.log (rnorm (pdash position (c.vertices_axis_aligned i)) +
      (pdash position (c.vertices_axis_aligned i)).z)

/-- Loop accumulation into `gg[[0,2]]` (also the loop body of `Cuboid::gxz`):
`sign * (r + y).ln()`. -/
def Cuboid.sxz (c : Cuboid) (position : Vec3) : ℝ :=
  ∑ i : Fin 8, Cuboid.index_order i *
    Real.log (rnorm (pdash position (c.vertices_axis_aligned i)) +
      (pdash position (c.vertices_axis_aligned i)).y)

/-- Loop accumulation into `gg[[1,2]]` (also the loop body of `Cuboid::gyz`):
`sign * (r + x).ln()`. -/
def Cuboid.syz (c : Cuboid) (position : Vec3) : ℝ :=
  ∑ i : Fin 8, Cuboid.index_order i *
    Real.log (rnorm (pdash position (c.vertices_axis_aligned i)) +
      (pdash position (c.vertices_axis_aligned i)).x)

def Cuboid.gxx (c : Cuboid) (position : Vec3) : ℝ := c.sxx position * gravG * c.density

def Cuboid.gyy (c : Cuboid) (position : Vec3) : ℝ := c.syy position * gravG * c.density

def Cuboid.gzz (c : Cuboid) (position : Vec3) : ℝ := c.szz position * gravG * c.density

def Cuboid.gxy (c : Cuboid) (position : Vec3) : ℝ := c.sxy position * gravG * c.density

def Cuboid.gxz (c : Cuboid) (position : Vec3) : ℝ := c.sxz position * gravG * c.density

def Cuboid.gyz (c : Cuboid) (position : Vec3) : ℝ := c.syz position * gravG * c.density

/-- `Cuboid::gg`: upper triangle accumulated in the loop, the mirror entries
copied by `gg[[1,0]] += gg[[0,1]]` (from their initial zero) and the whole
matrix multiplied by `G * density`. -/
def Cuboid.gg (c : Cuboid) (position : Vec3) : Mat3 :=
  ⟨c.sxx position * gravG * c.density,
   c.sxy position * gravG * c.density,
   c.sxz position * gravG * c.density,
   (0 + c.sxy position) * gravG * c.density,
   c.syy position * gravG * c.density,
   c.syz position * gravG * c.density,
   (0 + c.sxz position) * gravG * c.density,
   (0 + c.syz position) * gravG * c.density,
   c.szz position * gravG * c.density⟩

def Cuboid.volume (c : Cuboid) : ℝ := c.x_length * c.y_length * c.z_length

def Cuboid.mass (c : Cuboid) : ℝ := c.density * c.volume

/-- The per-point transformation in `Cuboid::calculate`:
`(points - centre).dot(Rz(-θz)).dot(Ry(-θy)).dot(Rx(-θx)) + centre`,
with ndarray's row-vector convention for `1d.dot(2d)`. -/
def Cuboid.rotatedPoint (c : Cuboid) (point : Vec3) : Vec3 :=
  Vec3.add
    (Vec3.vecMul
      (Vec3.vecMul
        (Vec3.vecMul (Vec3.sub point c.centre) (rotation_matrix_z (-c.z_rotation)))
        (rotation_matrix_y (-c.y_rotation)))
      (rotation_matrix_x (-c.x_rotation)))
    c.centre

/-- `rotation_matrix` of `Cuboid::calculate`:
`Rx(θx).dot(Ry(θy).dot(Rz(θz)))`. -/
def Cuboid.rotationMat (c : Cuboid) : Mat3 :=
  (rotation_matrix_x c.x_rotation).mul
    ((rotation_matrix_y c.y_rotation).mul (rotation_matrix_z c.z_rotation))

/-- The per-point accumulation of `Cuboid::calculate` before the final
`data * scaling` step: the vector components are
`g(rotated_point).dot(rotation_matrix)[k]` and the tensor components are
`(rotation_matrix.t().dot(gg(rotated_point))).dot(rotation_matrix)[[j,k]]`. -/
def Cuboid.rawPoint (c : Cuboid) (data_type : DataType) (point : Vec3) : ℝ :=
  match data_type with
  | DataType.Gx => (Vec3.vecMul (c.g (c.rotatedPoint point)) c.rotationMat).x
  | DataType.Gy => (Vec3.vecMul (c.g (c.rotatedPoint point)) c.rotationMat).y
  | DataType.Gz => (Vec3.vecMul (c.g (c.rotatedPoint point)) c.rotationMat).z
  | DataType.Gxx =>
      ((c.rotationMat.transpose.mul (c.gg (c.rotatedPoint point))).mul c.rotationMat).m00
  | DataType.Gxy =>
      ((c.rotationMat.transpose.mul (c.gg (c.rotatedPoint point))).mul c.rotationMat).m01
  | DataType.Gxz =>
      ((c.rotationMat.transpose.mul (c.gg (c.rotatedPoint point))).mul c.rotationMat).m02
  | DataType.Gyy =>
      ((c.rotationMat.transpose.mul (c.gg (c.rotatedPoint point))).mul c.rotationMat).m11
  | DataType.Gyz =>
      ((c.rotationMat.transpose.mul (c.gg (c.rotatedPoint point))).mul c.rotationMat).m12
  | DataType.Gzz =>
      ((c.rotationMat.transpose.mul (c.gg (c.rotatedPoint point))).mul c.rotationMat).m22

/-- `Cuboid::calculate` restricted to one observation point: accumulate
`rawPoint`, then `data * scaling`. -/
def Cuboid.calculatePoint (c : Cuboid) (data_type : DataType) (point : Vec3) : ℝ :=
  c.rawPoint data_type point * scaling data_type

/-- The `GravityObject` enum of the source. -/
inductive GravityObject where
  | cuboid (c : Cuboid)
  | sphere (s : Sphere)

/-- Per-object dispatch of `calculate` as done by the plotting loops of
`src/app.rs` (each arm calls the variant's own `calculate`). -/
def GravityObject.calculatePoint (o : GravityObject) (data_type : DataType)
    (point : Vec3) : ℝ :=
  match o with
  | GravityObject.cuboid c => c.calculatePoint data_type point
  | GravityObject.sphere s => s.calculatePoint data_type point

/-- The unscaled per-body value at one point (the `data[i]` accumulation of
either `calculate` before the final `data * scaling`). -/
def GravityObject.rawPoint (o : GravityObject) (data_type : DataType)
    (point : Vec3) : ℝ :=
  match o with
  | GravityObject.cuboid c => c.rawPoint data_type point
  | GravityObject.sphere s => s.rawPoint data_type point

/-- `data_total` of the plotting loops in `src/app.rs`: the running sum of
per-object `calculate` outputs at one observation point. -/
def dataTotal (objects : List GravityObject) (data_type : DataType) (point : Vec3) : ℝ :=
  (objects.map (fun o => o.calculatePoint data_type point)).sum

/-- The `PlotView` enum of `src/plot.rs`. -/
inductive PlotView where
  | XY | XZ | YZ

/-- One object entry of `Model::objects`, keeping the selection flag used by
the editing operations of `src/model.rs`. -/
structure ModelObject where
  object : GravityObject
  is_selected : Bool

/-- One guarded update of `Model::scale_selected`:
`if (cuboid.x_length + delta) > 0. { cuboid.x_length += delta; }`. -/
def bumpX (d : ℝ) (c : Cuboid) : Cuboid :=
  if 0 < c.x_length + d then { c with x_length := c.x_length + d } else c

/-- Guarded update of `y_length` by a drag delta. -/
def bumpY (d : ℝ) (c : Cuboid) : Cuboid :=
  if 0 < c.y_length + d then { c with y_length := c.y_length + d } else c

/-- Guarded update of `z_length` by a drag delta. -/
def bumpZ (d : ℝ) (c : Cuboid) : Cuboid :=
  if 0 < c.z_length + d then { c with z_length := c.z_length + d } else c

/-- The cuboid arm of `Model::scale_selected`: per view, the two affected
lengths are updated in sequence, each only when the result stays strictly
positive. -/
def scaleCuboid (view : PlotView) (dx dy : ℝ) (c : Cuboid) : Cuboid :=
  match view with
  | PlotView.XY => bumpY dy (bumpX dx c)
  | PlotView.XZ => bumpZ dy (bumpX dx c)
  | PlotView.YZ => bumpZ dy (bumpY dx c)

/-- The sphere arm of `Model::scale_selected`: the radius is increased by the
vertical drag delta only when the result stays strictly positive. -/
def scaleSphere (dy : ℝ) (s : Sphere) : Sphere :=
  if 0 < s.radius + dy then { s with radius := s.radius + dy } else s

/-- `Model::scale_selected` on a single object: unselected objects are
untouched. -/
def scaleSelectedObject (view : PlotView) (dx dy : ℝ) (o : ModelObject) : ModelObject :=
  if o.is_selected then
    match o.object with
    | GravityObject.cuboid c => ⟨GravityObject.cuboid (scaleCuboid view dx dy c), o.is_selected⟩
    | GravityObject.sphere s => ⟨GravityObject.sphere (scaleSphere dy s), o.is_selected⟩
  else o

/-- `Model::scale_selected` over the whole object collection. -/
def scaleSelected (view : PlotView) (dx dy : ℝ) (objects : List ModelObject) :
    List ModelObject :=
  objects.map (scaleSelectedObject view dx dy)

/-- Strict positivity of every dimension of a body. -/
def posDims : GravityObject → Prop
  | GravityObject.cuboid c => 0 < c.x_length ∧ 0 < c.y_length ∧ 0 < c.z_length
  | GravityObject.sphere s => 0 < s.radius

/-!  Specification-side definitions.  Everything below the next line is
transcribed from the natural-language spec, not from the code. -/

/-- Modelled from the spec: the standard right-handed rotation matrix about
the X axis, `[[1,0,0],[0,cosθ,−sinθ],[0,sinθ,cosθ]]`. -/
def stdRx (θ : ℝ) : Mat3 :=
  ⟨1, 0, 0,
   0, Real.cos θ, -Real.sin θ,
   0, Real.sin θ, Real.cos θ⟩

/-- Modelled from the spec: the standard right-handed rotation matrix about
the Y axis. -/
def stdRy (θ : ℝ) : Mat3 :=
  ⟨Real.cos θ, 0, Real.sin θ,
   0, 1, 0,
   -Real.sin θ, 0, Real.cos θ⟩

/-- Modelled from the spec: the standard right-handed rotation matrix about
the Z axis. -/
def stdRz (θ : ℝ) : Mat3 :=
  ⟨Real.cos θ, -Real.sin θ, 0,
   Real.sin θ, Real.cos θ, 0,
   0, 0, 1⟩

/-- The spec's sign table `(+1,−1,+1,−1,−1,+1,−1,+1)`. -/
def specSign : Fin 8 → ℝ
  | 0 => 1
  | 1 => -1
  | 2 => 1
  | 3 => -1
  | 4 => -1
  | 5 => 1
  | 6 => -1
  | 7 => 1

/-- The spec's vertex table: V0=(−,−,−), V1=(−,−,+), V2=(−,+,+), V3=(−,+,−),
V4=(+,−,−), V5=(+,+,−), V6=(+,+,+), V7=(+,−,+), with −/+ standing for
centroid ∓ length/2 on each axis. -/
def specVertex (c : Cuboid) : Fin 8 → Vec3
  | 0 => ⟨c.x_centroid - c.x_length / 2, c.y_centroid - c.y_length / 2,
          c.z_centroid - c.z_length / 2⟩
  | 1 => ⟨c.x_centroid - c.x_length / 2, c.y_centroid - c.y_length / 2,
          c.z_centroid + c.z_length / 2⟩
  | 2 => ⟨c.x_centroid - c.x_length / 2, c.y_centroid + c.y_length / 2,
          c.z_centroid + c.z_length / 2⟩
  | 3 => ⟨c.x_centroid - c.x_length / 2, c.y_centroid + c.y_length / 2,
          c.z_centroid - c.z_length / 2⟩
  | 4 => ⟨c.x_centroid + c.x_length / 2, c.y_centroid - c.y_length / 2,
          c.z_centroid - c.z_length / 2⟩
  | 5 => ⟨c.x_centroid + c.x_length / 2, c.y_centroid + c.y_length / 2,
          c.z_centroid - c.z_length / 2⟩
  | 6 => ⟨c.x_centroid + c.x_length / 2, c.y_centroid + c.y_length / 2,
          c.z_centroid + c.z_length / 2⟩
  | 7 => ⟨c.x_centroid + c.x_length / 2, c.y_centroid - c.y_length / 2,
          c.z_centroid + c.z_length / 2⟩

/-- The spec's corner-relative offset `Δ = P·(1+ε) − V` with `ε = 1e-7`. -/
def specDelta (P v : Vec3) : Vec3 :=
  ⟨P.x * (1 + 1e-7) - v.x, P.y * (1 + 1e-7) - v.y, P.z * (1 + 1e-7) - v.z⟩

/-- The spec's `r = |Δ|`. -/
def specR (d : Vec3) : ℝ := Real.sqrt (d.x ^ 2 + d.y ^ 2 + d.z ^ 2)

/-- The spec formula for the cuboid gz component:
`G·density · Σᵢ sᵢ·( x·ln(r+y) + y·ln(r+x) − z·atan(x·y/(r·z)) )`. -/
def specCuboidGz (c : Cuboid) (P : Vec3) : ℝ :=
  6.674e-11 * c.density *
    ∑ i : Fin 8, specSign i *
      ((specDelta P (specVertex c i)).x *
          Real.log (specR (specDelta P (specVertex c i)) + (specDelta P (specVertex c i)).y) +
        (specDelta P (specVertex c i)).y *
          Real.log (specR (specDelta P (specVertex c i)) + (specDelta P (specVertex c i)).x) -
        (specDelta P (specVertex c i)).z *
          Real.arctan ((specDelta P (specVertex c i)).x * (specDelta P (specVertex c i)).y /
            (specR (specDelta P (specVertex c i)) * (specDelta P (specVertex c i)).z)))

/-- The spec formula for the cuboid gx component:
`G·density · Σᵢ sᵢ·( y·ln(r+z) + z·ln(r+y) − x·atan(y·z/(r·x)) )`. -/
def specCuboidGx (c : Cuboid) (P : Vec3) : ℝ :=
  6.674e-11 * c.density *
    ∑ i : Fin 8, specSign i *
      ((specDelta P (specVertex c i)).y *
          Real.log (specR (specDelta P (specVertex c i)) + (specDelta P (specVertex c i)).z) +
        (specDelta P (specVertex c i)).z *
          Real.log (specR (specDelta P (specVertex c i)) + (specDelta P (specVertex c i)).y) -
        (specDelta P (specVertex c i)).x *
          Real.arctan ((specDelta P (specVertex c i)).y * (specDelta P (specVertex c i)).z /
            (specR (specDelta P (specVertex c i)) * (specDelta P (specVertex c i)).x)))

/-- The spec formula for the cuboid gy component:
`G·density · Σᵢ sᵢ·( z·ln(r+x) + x·ln(r+z) − y·atan(x·z/(r·y)) )`. -/
def specCuboidGy (c : Cuboid) (P : Vec3) : ℝ :=
  6.674e-11 * c.density *
    ∑ i : Fin 8, specSign i *
      ((specDelta P (specVertex c i)).z *
          Real.log (specR (specDelta P (specVertex c i)) + (specDelta P (specVertex c i)).x) +
        (specDelta P (specVertex c i)).x *
          Real.log (specR (specDelta P (specVertex c i)) + (specDelta P (specVertex c i)).z) -
        (specDelta P (specVertex c i)).y *
          Real.arctan ((specDelta P (specVertex c i)).x * (specDelta P (specVertex c i)).z /
            (specR (specDelta P (specVertex c i)) * (specDelta P (specVertex c i)).y)))

/-- The spec's sphere centre offset `Δ = P·(1+ε) − centre`. -/
def specSphereDelta (s : Sphere) (P : Vec3) : Vec3 :=
  ⟨P.x * (1 + 1e-7) - s.x_centroid,
   P.y * (1 + 1e-7) - s.y_centroid,
   P.z * (1 + 1e-7) - s.z_centroid⟩

/-- The spec's squared distance `r² = |Δ|² = Δ·Δ` for the sphere (the code
variable named `r` holds this squared length). -/
def specSphereRsq (s : Sphere) (P : Vec3) : ℝ :=
  (specSphereDelta s P).x ^ 2 + (specSphereDelta s P).y ^ 2 + (specSphereDelta s P).z ^ 2

/-- The spec's sphere constant `C = −(4/3)·π·G·radius³·density`. -/
def specSphereC (s : Sphere) : ℝ :=
  -(4 / 3) * Real.pi * 6.674e-11 * s.radius ^ 3 * s.density

/-- Spec formula `gx = C·x/(r²)^(3/2)`. -/
def specSphereGx (s : Sphere) (P : Vec3) : ℝ :=
  specSphereC s * (specSphereDelta s P).x / specSphereRsq s P ^ ((3 : ℝ) / 2)

/-- Cyclic image of `specSphereGx` under x→y→z→x. -/
def specSphereGy (s : Sphere) (P : Vec3) : ℝ :=
  specSphereC s * (specSphereDelta s P).y / specSphereRsq s P ^ ((3 : ℝ) / 2)

/-- Second cyclic image of `specSphereGx`. -/
def specSphereGz (s : Sphere) (P : Vec3) : ℝ :=
  specSphereC s * (specSphereDelta s P).z / specSphereRsq s P ^ ((3 : ℝ) / 2)

/-- Spec formula `gxx = (C/(r²)^(3/2))·(1 − 3x²/r²)`. -/
def specSphereGxx (s : Sphere) (P : Vec3) : ℝ :=
  specSphereC s / specSphereRsq s P ^ ((3 : ℝ) / 2) *
    (1 - 3 * (specSphereDelta s P).x ^ 2 / specSphereRsq s P)

/-- Cyclic image of `specSphereGxx` under x→y→z→x. -/
def specSphereGyy (s : Sphere) (P : Vec3) : ℝ :=
  specSphereC s / specSphereRsq s P ^ ((3 : ℝ) / 2) *
    (1 - 3 * (specSphereDelta s P).y ^ 2 / specSphereRsq s P)

/-- Second cyclic image of `specSphereGxx`. -/
def specSphereGzz (s : Sphere) (P : Vec3) : ℝ :=
  specSphereC s / specSphereRsq s P ^ ((3 : ℝ) / 2) *
    (1 - 3 * (specSphereDelta s P).z ^ 2 / specSphereRsq s P)

/-- Spec formula `gxy = −3C·y·z/(r²)^(5/2)` (the spec transcribes the code's
`y·z` numerator here). -/
def specSphereGxy (s : Sphere) (P : Vec3) : ℝ :=
  -3 * specSphereC s * (specSphereDelta s P).y * (specSphereDelta s P).z /
    specSphereRsq s P ^ ((5 : ℝ) / 2)

/-- Cyclic image of `specSphereGxy` under x→y→z→x, as the claim prescribes
for gyz: the numerator `y·z` becomes `z·x`. -/
def specSphereGyzCyclic (s : Sphere) (P : Vec3) : ℝ :=
  -3 * specSphereC s * (specSphereDelta s P).z * (specSphereDelta s P).x /
    specSphereRsq s P ^ ((5 : ℝ) / 2)

/-- Second cyclic image of `specSphereGxy`, the claim's prediction for gzx:
the numerator becomes `x·y`. -/
def specSphereGxzCyclic (s : Sphere) (P : Vec3) : ℝ :=
  -3 * specSphereC s * (specSphereDelta s P).x * (specSphereDelta s P).y /
    specSphereRsq s P ^ ((5 : ℝ) / 2)

/-- Amended formula for gxz actually implemented: numerator `x·z`. -/
def specSphereGxzAmended (s : Sphere) (P : Vec3) : ℝ :=
  -3 * specSphereC s * (specSphereDelta s P).x * (specSphereDelta s P).z /
    specSphereRsq s P ^ ((5 : ℝ) / 2)

/-- Amended formula for gyz actually implemented: numerator `y·z`,
identical to the gxy formula. -/
def specSphereGyzAmended (s : Sphere) (P : Vec3) : ℝ :=
  -3 * specSphereC s * (specSphereDelta s P).y * (specSphereDelta s P).z /
    specSphereRsq s P ^ ((5 : ℝ) / 2)

/-- The claim's local observation point for a rotated cuboid:
`P_local = Rz(−θz)·Ry(−θy)·Rx(−θx)·(P − centre) + centre` with the standard
right-handed matrices. -/
def specPLocalClaim (c : Cuboid) (P : Vec3) : Vec3 :=
  Vec3.add
    (Mat3.mulVec (stdRz (-c.z_rotation))
      (Mat3.mulVec (stdRy (-c.y_rotation))
        (Mat3.mulVec (stdRx (-c.x_rotation)) (Vec3.sub P c.centre))))
    c.centre

/-- The composite rotation the code actually applies to local vectors:
`Q = Rz(θz)·Ry(θy)·Rx(θx)` in standard right-handed matrices. -/
def specQ (c : Cuboid) : Mat3 :=
  (stdRz c.z_rotation).mul ((stdRy c.y_rotation).mul (stdRx c.x_rotation))

/-!  Analytic machinery for the Laplace invariant.  `Sfun x y z` is the sum
of the three arctangent terms one cuboid vertex contributes to
`gxx + gyy + gzz` (before the sign and the `G·density` factor). -/

/-- Per-vertex arctangent sum appearing in the trace of the cuboid gradient
tensor. -/
def Sfun (x y z : ℝ) : ℝ :=
  Real.arctan (y * z / (Real.sqrt (x ^ 2 + y ^ 2 + z ^ 2) * x)) +
    Real.arctan (x * z / (Real.sqrt (x ^ 2 + y ^ 2 + z ^ 2) * y)) +
    Real.arctan (y * x / (Real.sqrt (x ^ 2 + y ^ 2 + z ^ 2) * z))

lemma Sfun_zero (x y z : ℝ) (h : x = 0 ∨ y = 0 ∨ z = 0) : Sfun x y z = 0 := by
  unfold Sfun
  rcases h with h | h | h <;> subst h <;> simp

lemma Sfun_add2 (x y z : ℝ) (hx : x ≠ 0) (hy : y ≠ 0) :
    Real.arctan (y * z / (Real.sqrt (x ^ 2 + y ^ 2 + z ^ 2) * x)) +
      Real.arctan (x * z / (Real.sqrt (x ^ 2 + y ^ 2 + z ^ 2) * y)) =
    Real.arctan (z * Real.sqrt (x ^ 2 + y ^ 2 + z ^ 2) / (x * y)) := by
  set r := Real.sqrt (x ^ 2 + y ^ 2 + z ^ 2) with hrdef
  have hx2 : (0:ℝ) < x ^ 2 := lt_of_le_of_ne (sq_nonneg x) (Ne.symm (pow_ne_zero 2 hx))
  have hy2 : (0:ℝ) < y ^ 2 := lt_of_le_of_ne (sq_nonneg y) (Ne.symm (pow_ne_zero 2 hy))
  have hs : (0:ℝ) < x ^ 2 + y ^ 2 + z ^ 2 := by nlinarith [sq_nonneg z]
  have hr : 0 < r := Real.sqrt_pos.mpr hs
  have hrr : r ^ 2 = x ^ 2 + y ^ 2 + z ^ 2 := Real.sq_sqrt hs.le
  have hab : y * z / (r * x) * (x * z / (r * y)) = z ^ 2 / (x ^ 2 + y ^ 2 + z ^ 2) := by
    rw [← hrr]; field_simp; ring
  have hab_lt : y * z / (r * x) * (x * z / (r * y)) < 1 := by
    rw [hab, div_lt_one hs]; nlinarith
  rw [Real.arctan_add hab_lt]
  congr 1
  rw [hab]
  have h1 : y * z / (r * x) + x * z / (r * y) = z * (x ^ 2 + y ^ 2) / (r * (x * y)) := by
    field_simp; ring
  have h2 : (1:ℝ) - z ^ 2 / (x ^ 2 + y ^ 2 + z ^ 2) = (x ^ 2 + y ^ 2) / r ^ 2 := by
    rw [hrr]; field_simp
  have hK : x ^ 2 + y ^ 2 ≠ 0 := by nlinarith
  rw [h1, h2]
  field_simp
  ring

lemma Sfun_pos (x y z : ℝ) (hx : x ≠ 0) (hy : y ≠ 0) (hz : z ≠ 0) (h : 0 < x * y * z) :
    Sfun x y z = Real.pi / 2 := by
  clear hz
  unfold Sfun
  rw [Sfun_add2 x y z hx hy]
  set r := Real.sqrt (x ^ 2 + y ^ 2 + z ^ 2) with hrdef
  have hx2 : (0:ℝ) < x ^ 2 := lt_of_le_of_ne (sq_nonneg x) (Ne.symm (pow_ne_zero 2 hx))
  have hy2 : (0:ℝ) < y ^ 2 := lt_of_le_of_ne (sq_nonneg y) (Ne.symm (pow_ne_zero 2 hy))
  have hs : (0:ℝ) < x ^ 2 + y ^ 2 + z ^ 2 := by nlinarith [sq_nonneg z]
  have hr : 0 < r := Real.sqrt_pos.mpr hs
  have ht : y * x / (r * z) = (z * r / (x * y))⁻¹ := by rw [inv_div]; ring
  rw [ht]
  have htpos : 0 < z * r / (x * y) := by
    rcases mul_pos_iff.mp h with ⟨hxy, hzp⟩ | ⟨hxy, hzp⟩
    · exact div_pos (mul_pos hzp hr) hxy
    · exact div_pos_iff.mpr (Or.inr ⟨mul_neg_of_neg_of_pos hzp hr, hxy⟩)
  rw [Real.arctan_inv_of_pos htpos]
  ring

lemma Sfun_neg (x y z : ℝ) (hx : x ≠ 0) (hy : y ≠ 0) (hz : z ≠ 0) (h : x * y * z < 0) :
    Sfun x y z = -(Real.pi / 2) := by
  clear hz
  unfold Sfun
  rw [Sfun_add2 x y z hx hy]
  set r := Real.sqrt (x ^ 2 + y ^ 2 + z ^ 2) with hrdef
  have hx2 : (0:ℝ) < x ^ 2 := lt_of_le_of_ne (sq_nonneg x) (Ne.symm (pow_ne_zero 2 hx))
  have hy2 : (0:ℝ) < y ^ 2 := lt_of_le_of_ne (sq_nonneg y) (Ne.symm (pow_ne_zero 2 hy))
  have hs : (0:ℝ) < x ^ 2 + y ^ 2 + z ^ 2 := by nlinarith [sq_nonneg z]
  have hr : 0 < r := Real.sqrt_pos.mpr hs
  have ht : y * x / (r * z) = (z * r / (x * y))⁻¹ := by rw [inv_div]; ring
  rw [ht]
  have htneg : z * r / (x * y) < 0 := by
    rcases mul_neg_iff.mp h with ⟨hxy, hzp⟩ | ⟨hxy, hzp⟩
    · exact div_neg_iff.mpr (Or.inr ⟨mul_neg_of_neg_of_pos hzp hr, hxy⟩)
    · exact div_neg_iff.mpr (Or.inl ⟨mul_pos hzp hr, hxy⟩)
  rw [Real.arctan_inv_of_neg htneg]
  ring

lemma posMulCongr {a b : ℝ} (h : 0 < a * b) (w : ℝ) : 0 < a * w ↔ 0 < b * w := by
  rcases mul_pos_iff.mp h with ⟨ha, hb⟩ | ⟨ha, hb⟩
  · constructor <;> intro hw
    · exact mul_pos hb (by nlinarith)
    · exact mul_pos ha (by nlinarith)
  · constructor <;> intro hw
    · exact mul_pos_of_neg_of_neg hb (by nlinarith)
    · exact mul_pos_of_neg_of_neg ha (by nlinarith)

lemma negMulCongr {a b : ℝ} (h : 0 < a * b) (w : ℝ) : a * w < 0 ↔ b * w < 0 := by
  have h2 := posMulCongr h (-w)
  simpa [mul_neg, neg_pos] using h2

lemma Sfun_congr_x {a b : ℝ} (h : 0 < a * b) (y z : ℝ) : Sfun a y z = Sfun b y z := by
  have ha : a ≠ 0 := by rintro rfl; simp at h
  have hb : b ≠ 0 := by rintro rfl; simp at h
  by_cases hy : y = 0
  · rw [Sfun_zero _ _ _ (Or.inr (Or.inl hy)), Sfun_zero _ _ _ (Or.inr (Or.inl hy))]
  by_cases hz : z = 0
  · rw [Sfun_zero _ _ _ (Or.inr (Or.inr hz)), Sfun_zero _ _ _ (Or.inr (Or.inr hz))]
  have hyz : y * z ≠ 0 := mul_ne_zero hy hz
  rcases lt_trichotomy (a * (y * z)) 0 with hcase | hcase | hcase
  · have h1 : a * y * z < 0 := by rw [mul_assoc]; exact hcase
    have h2 : b * y * z < 0 := by rw [mul_assoc]; exact (negMulCongr h (y * z)).mp hcase
    rw [Sfun_neg a y z ha hy hz h1, Sfun_neg b y z hb hy hz h2]
  · exact absurd hcase (mul_ne_zero ha hyz)
  · have h1 : 0 < a * y * z := by rw [mul_assoc]; exact hcase
    have h2 : 0 < b * y * z := by rw [mul_assoc]; exact (posMulCongr h (y * z)).mp hcase
    rw [Sfun_pos a y z ha hy hz h1, Sfun_pos b y z hb hy hz h2]

lemma Sfun_congr_y {a b : ℝ} (h : 0 < a * b) (x z : ℝ) : Sfun x a z = Sfun x b z := by
  have ha : a ≠ 0 := by rintro rfl; simp at h
  have hb : b ≠ 0 := by rintro rfl; simp at h
  by_cases hx : x = 0
  · rw [Sfun_zero _ _ _ (Or.inl hx), Sfun_zero _ _ _ (Or.inl hx)]
  by_cases hz : z = 0
  · rw [Sfun_zero _ _ _ (Or.inr (Or.inr hz)), Sfun_zero _ _ _ (Or.inr (Or.inr hz))]
  have hxz : x * z ≠ 0 := mul_ne_zero hx hz
  rcases lt_trichotomy (a * (x * z)) 0 with hcase | hcase | hcase
  · have h1 : x * a * z < 0 := by nlinarith [hcase]
    have h2 : x * b * z < 0 := by have := (negMulCongr h (x * z)).mp hcase; nlinarith [this]
    rw [Sfun_neg x a z hx ha hz h1, Sfun_neg x b z hx hb hz h2]
  · exact absurd hcase (mul_ne_zero ha hxz)
  · have h1 : 0 < x * a * z := by nlinarith [hcase]
    have h2 : 0 < x * b * z := by have := (posMulCongr h (x * z)).mp hcase; nlinarith [this]
    rw [Sfun_pos x a z hx ha hz h1, Sfun_pos x b z hx hb hz h2]

lemma Sfun_congr_z {a b : ℝ} (h : 0 < a * b) (x y : ℝ) : Sfun x y a = Sfun x y b := by
  have ha : a ≠ 0 := by rintro rfl; simp at h
  have hb : b ≠ 0 := by rintro rfl; simp at h
  by_cases hx : x = 0
  · rw [Sfun_zero _ _ _ (Or.inl hx), Sfun_zero _ _ _ (Or.inl hx)]
  by_cases hy : y = 0
  · rw [Sfun_zero _ _ _ (Or.inr (Or.inl hy)), Sfun_zero _ _ _ (Or.inr (Or.inl hy))]
  have hxy : x * y ≠ 0 := mul_ne_zero hx hy
  rcases lt_trichotomy (a * (x * y)) 0 with hcase | hcase | hcase
  · have h1 : x * y * a < 0 := by nlinarith [hcase]
    have h2 : x * y * b < 0 := by have := (negMulCongr h (x * y)).mp hcase; nlinarith [this]
    rw [Sfun_neg x y a hx hy ha h1, Sfun_neg x y b hx hy hb h2]
  · exact absurd hcase (mul_ne_zero ha hxy)
  · have h1 : 0 < x * y * a := by nlinarith [hcase]
    have h2 : 0 < x * y * b := by have := (posMulCongr h (x * y)).mp hcase; nlinarith [this]
    rw [Sfun_pos x y a hx hy ha h1, Sfun_pos x y b hx hy hb h2]

/-- Offset from the perturbed observation point to the low x face. -/
def oxm (c : Cuboid) (P : Vec3) : ℝ := P.x * (1 + 1e-7) - (c.x_centroid - c.x_length / 2)

/-- Offset from the perturbed observation point to the high x face. -/
def oxp (c : Cuboid) (P : Vec3) : ℝ := P.x * (1 + 1e-7) - (c.x_centroid + c.x_length / 2)

/-- Offset from the perturbed observation point to the low y face. -/
def oym (c : Cuboid) (P : Vec3) : ℝ := P.y * (1 + 1e-7) - (c.y_centroid - c.y_length / 2)

/-- Offset from the perturbed observation point to the high y face. -/
def oyp (c : Cuboid) (P : Vec3) : ℝ := P.y * (1 + 1e-7) - (c.y_centroid + c.y_length / 2)

/-- Offset from the perturbed observation point to the low z face. -/
def ozm (c : Cuboid) (P : Vec3) : ℝ := P.z * (1 + 1e-7) - (c.z_centroid - c.z_length / 2)

/-- Offset from the perturbed observation point to the high z face. -/
def ozp (c : Cuboid) (P : Vec3) : ℝ := P.z * (1 + 1e-7) - (c.z_centroid + c.z_length / 2)

lemma trace_formula (c : Cuboid) (P : Vec3) :
    c.gxx P + c.gyy P + c.gzz P =
      gravG * c.density *
        (-(Sfun (oxm c P) (oym c P) (ozm c P) - Sfun (oxm c P) (oym c P) (ozp c P)
          + Sfun (oxm c P) (oyp c P) (ozp c P) - Sfun (oxm c P) (oyp c P) (ozm c P)
          - Sfun (oxp c P) (oym c P) (ozm c P) + Sfun (oxp c P) (oyp c P) (ozm c P)
          - Sfun (oxp c P) (oyp c P) (ozp c P) + Sfun (oxp c P) (oym c P) (ozp c P))) := by
  unfold Cuboid.gxx Cuboid.gyy Cuboid.gzz Cuboid.sxx Cuboid.syy Cuboid.szz
  rw [Fin.sum_univ_eight, Fin.sum_univ_eight, Fin.sum_univ_eight]
  simp only [Cuboid.index_order, Cuboid.vertices_axis_aligned, pdash, rnorm, Sfun,
    oxm, oxp, oym, oyp, ozm, ozp]
  ring

/-- The perturbed observation point lies strictly outside the axis-aligned
box on at least one axis. -/
def Cuboid.outsidePerturbed (c : Cuboid) (P : Vec3) : Prop :=
  (P.x * (1 + 1e-7) < c.x_centroid - c.x_length / 2 ∨
    c.x_centroid + c.x_length / 2 < P.x * (1 + 1e-7)) ∨
  (P.y * (1 + 1e-7) < c.y_centroid - c.y_length / 2 ∨
    c.y_centroid + c.y_length / 2 < P.y * (1 + 1e-7)) ∨
  (P.z * (1 + 1e-7) < c.z_centroid - c.z_length / 2 ∨
    c.z_centroid + c.z_length / 2 < P.z * (1 + 1e-7))

/-- The perturbed observation point lies strictly outside the sphere. -/
def Sphere.outsidePerturbed (s : Sphere) (P : Vec3) : Prop :=
  s.radius ^ 2 < sqsum (pdash P s.centre)

lemma cuboid_trace_zero (c : Cuboid) (P : Vec3) (hx : 0 < c.x_length) (hy : 0 < c.y_length)
    (hz : 0 < c.z_length) (hout : c.outsidePerturbed P) :
    c.gxx P + c.gyy P + c.gzz P = 0 := by
  rw [trace_formula]
  rcases hout with hcase | hcase | hcase
  · have hprod : 0 < oxm c P * oxp c P := by
      unfold oxm oxp
      rcases hcase with h1 | h1
      · have hm : P.x * (1 + 1e-7) - (c.x_centroid - c.x_length / 2) < 0 := by linarith
        have hp : P.x * (1 + 1e-7) - (c.x_centroid + c.x_length / 2) < 0 := by linarith
        exact mul_pos_of_neg_of_neg hm hp
      · have hm : 0 < P.x * (1 + 1e-7) - (c.x_centroid - c.x_length / 2) := by linarith
        have hp : 0 < P.x * (1 + 1e-7) - (c.x_centroid + c.x_length / 2) := by linarith
        exact mul_pos hm hp
    rw [Sfun_congr_x hprod (oym c P) (ozm c P), Sfun_congr_x hprod (oym c P) (ozp c P),
      Sfun_congr_x hprod (oyp c P) (ozp c P), Sfun_congr_x hprod (oyp c P) (ozm c P)]
    ring
  · have hprod : 0 < oym c P * oyp c P := by
      unfold oym oyp
      rcases hcase with h1 | h1
      · have hm : P.y * (1 + 1e-7) - (c.y_centroid - c.y_length / 2) < 0 := by linarith
        have hp : P.y * (1 + 1e-7) - (c.y_centroid + c.y_length / 2) < 0 := by linarith
        exact mul_pos_of_neg_of_neg hm hp
      · have hm : 0 < P.y * (1 + 1e-7) - (c.y_centroid - c.y_length / 2) := by linarith
        have hp : 0 < P.y * (1 + 1e-7) - (c.y_centroid + c.y_length / 2) := by linarith
        exact mul_pos hm hp
    rw [Sfun_congr_y hprod (oxm c P) (ozm c P), Sfun_congr_y hprod (oxm c P) (ozp c P),
      Sfun_congr_y hprod (oxp c P) (ozp c P), Sfun_congr_y hprod (oxp c P) (ozm c P)]
    ring
  · have hprod : 0 < ozm c P * ozp c P := by
      unfold ozm ozp
      rcases hcase with h1 | h1
      · have hm : P.z * (1 + 1e-7) - (c.z_centroid - c.z_length / 2) < 0 := by linarith
        have hp : P.z * (1 + 1e-7) - (c.z_centroid + c.z_length / 2) < 0 := by linarith
        exact mul_pos_of_neg_of_neg hm hp
      · have hm : 0 < P.z * (1 + 1e-7) - (c.z_centroid - c.z_length / 2) := by linarith
        have hp : 0 < P.z * (1 + 1e-7) - (c.z_centroid + c.z_length / 2) := by linarith
        exact mul_pos hm hp
    rw [Sfun_congr_z hprod (oxm c P) (oym c P), Sfun_congr_z hprod (oxm c P) (oyp c P),
      Sfun_congr_z hprod (oxp c P) (oyp c P), Sfun_congr_z hprod (oxp c P) (oym c P)]
    ring

lemma sphere_trace_zero (s : Sphere) (P : Vec3) (h : s.outsidePerturbed P) :
    s.gxx P + s.gyy P + s.gzz P = 0 := by
  unfold Sphere.outsidePerturbed at h
  have hpos : 0 < sqsum (pdash P s.centre) := lt_of_le_of_lt (sq_nonneg _) h
  unfold Sphere.gxx Sphere.gyy Sphere.gzz
  have hne : sqsum (pdash P s.centre) ≠ 0 := ne_of_gt hpos
  have hr32 : sqsum (pdash P s.centre) ^ ((3:ℝ)/2) ≠ 0 :=
    ne_of_gt (Real.rpow_pos_of_pos hpos _)
  rw [show sqsum (pdash P s.centre) =
    (pdash P s.centre).x ^ 2 + (pdash P s.centre).y ^ 2 + (pdash P s.centre).z ^ 2
    from rfl] at hne hr32 ⊢
  field_simp
  ring

lemma calcPoint_eq_raw_mul (o : GravityObject) (dt : DataType) (P : Vec3) :
    o.calculatePoint dt P = o.rawPoint dt P * scaling dt := by
  cases o <;> rfl

lemma dataTotal_eq (objects : List GravityObject) (dt : DataType) (P : Vec3) :
    dataTotal objects dt P = scaling dt * ((objects.map fun o => o.rawPoint dt P).sum) := by
  induction objects with
  | nil => simp [dataTotal]
  | cons o t ih =>
    simp only [dataTotal, List.map_cons, List.sum_cons] at *
    rw [calcPoint_eq_raw_mul, ih]; ring

lemma bumpX_dims (d : ℝ) (c : Cuboid) (hx : 0 < c.x_length) :
    0 < (bumpX d c).x_length ∧ (bumpX d c).y_length = c.y_length ∧
      (bumpX d c).z_length = c.z_length := by
  unfold bumpX; split_ifs with h <;> simp_all

lemma bumpY_dims (d : ℝ) (c : Cuboid) (hy : 0 < c.y_length) :
    0 < (bumpY d c).y_length ∧ (bumpY d c).x_length = c.x_length ∧
      (bumpY d c).z_length = c.z_length := by
  unfold bumpY; split_ifs with h <;> simp_all

lemma bumpZ_dims (d : ℝ) (c : Cuboid) (hz : 0 < c.z_length) :
    0 < (bumpZ d c).z_length ∧ (bumpZ d c).x_length = c.x_length ∧
      (bumpZ d c).y_length = c.y_length := by
  unfold bumpZ; split_ifs with h <;> simp_all

lemma scaleCuboid_pos (view : PlotView) (dx dy : ℝ) (c : Cuboid)
    (hx : 0 < c.x_length) (hy : 0 < c.y_length) (hz : 0 < c.z_length) :
    0 < (scaleCuboid view dx dy c).x_length ∧ 0 < (scaleCuboid view dx dy c).y_length ∧
      0 < (scaleCuboid view dx dy c).z_length := by
  cases view with
  | XY =>
    have A := bumpX_dims dx c hx
    have B := bumpY_dims dy (bumpX dx c) (by rw [A.2.1]; exact hy)
    refine ⟨?_, B.1, ?_⟩
    · show 0 < (bumpY dy (bumpX dx c)).x_length
      rw [B.2.1]; exact A.1
    · show 0 < (bumpY dy (bumpX dx c)).z_length
      rw [B.2.2, A.2.2]; exact hz
  | XZ =>
    have A := bumpX_dims dx c hx
    have B := bumpZ_dims dy (bumpX dx c) (by rw [A.2.2]; exact hz)
    refine ⟨?_, ?_, B.1⟩
    · show 0 < (bumpZ dy (bumpX dx c)).x_length
      rw [B.2.1]; exact A.1
    · show 0 < (bumpZ dy (bumpX dx c)).y_length
      rw [B.2.2, A.2.1]; exact hy
  | YZ =>
    have A := bumpY_dims dx c hy
    have B := bumpZ_dims dy (bumpY dx c) (by rw [A.2.2]; exact hz)
    refine ⟨?_, ?_, B.1⟩
    · show 0 < (bumpZ dy (bumpY dx c)).x_length
      rw [B.2.1, A.2.1]; exact hx
    · show 0 < (bumpZ dy (bumpY dx c)).y_length
      rw [B.2.2]; exact A.1

lemma scaleSphere_pos (dy : ℝ) (s : Sphere) (h : 0 < s.radius) :
    0 < (scaleSphere dy s).radius := by
  unfold scaleSphere; split_ifs with hc <;> simp_all



/-- Claim C1: for every cuboid and observation point P, `gz` returns
G·density times the signed sum over the 8 vertices of
x·ln(r+y) + y·ln(r+x) − z·atan(x·y/(r·z)) with (x,y,z) = P·(1+1e-7) − Vᵢ,
r = |(x,y,z)| and G = 6.674e-11; the analogous permuted formulas hold for
gx and gy, and `g` packs the three components. -/
theorem c1_cuboid_field_formulas : ∀ (c : Cuboid) (P : Vec3),
    c.gz P = specCuboidGz c P ∧ c.gx P = specCuboidGx c P ∧
      c.gy P = specCuboidGy c P ∧ c.g P = ⟨c.gx P, c.gy P, c.gz P⟩ := by
  intro c P
  have hz : (∑ i : Fin 8, c.gzTerm P i) =
      ∑ i : Fin 8, specSign i *
        ((specDelta P (specVertex c i)).x *
            Real.log (specR (specDelta P (specVertex c i)) + (specDelta P (specVertex c i)).y) +
          (specDelta P (specVertex c i)).y *
            Real.log (specR (specDelta P (specVertex c i)) + (specDelta P (specVertex c i)).x) -
          (specDelta P (specVertex c i)).z *
            Real.arctan ((specDelta P (specVertex c i)).x * (specDelta P (specVertex c i)).y /
              (specR (specDelta P (specVertex c i)) * (specDelta P (specVertex c i)).z))) :=
    Finset.sum_congr rfl fun i _ => by fin_cases i <;> rfl
  have hx : (∑ i : Fin 8, c.gxTerm P i) =
      ∑ i : Fin 8, specSign i *
        ((specDelta P (specVertex c i)).y *
            Real.log (specR (specDelta P (specVertex c i)) + (specDelta P (specVertex c i)).z) +
          (specDelta P (specVertex c i)).z *
            Real.log (specR (specDelta P (specVertex c i)) + (specDelta P (specVertex c i)).y) -
          (specDelta P (specVertex c i)).x *
            Real.arctan ((specDelta P (specVertex c i)).y * (specDelta P (specVertex c i)).z /
              (specR (specDelta P (specVertex c i)) * (specDelta P (specVertex c i)).x))) :=
    Finset.sum_congr rfl fun i _ => by fin_cases i <;> rfl
  have hy : (∑ i : Fin 8, c.gyTerm P i) =
      ∑ i : Fin 8, specSign i *
        ((specDelta P (specVertex c i)).z *
            Real.log (specR (specDelta P (specVertex c i)) + (specDelta P (specVertex c i)).x) +
          (specDelta P (specVertex c i)).x *
            Real.log (specR (specDelta P (specVertex c i)) + (specDelta P (specVertex c i)).z) -
          (specDelta P (specVertex c i)).y *
            Real.arctan ((specDelta P (specVertex c i)).x * (specDelta P (specVertex c i)).z /
              (specR (specDelta P (specVertex c i)) * (specDelta P (specVertex c i)).y))) :=
    Finset.sum_congr rfl fun i _ => by fin_cases i <;> rfl
  refine ⟨?_, ?_, ?_, rfl⟩
  · unfold Cuboid.gz specCuboidGz gravG; rw [hz]; ring
  · unfold Cuboid.gx specCuboidGx gravG; rw [hx]; ring
  · unfold Cuboid.gy specCuboidGy gravG; rw [hy]; ring

/-- Claim C2 counterexample: with rotations θx = θz = π/2, θy = 0 and
centre 0, the point the code feeds the unrotated formulas differs from the
claim's P_local = Rz(−θz)·Ry(−θy)·Rx(−θx)·(P − centre) + centre (standard
right-handed matrices): at P = (1,0,0) the code produces (0,0,1) while the
claim's formula gives (0,−1,0). -/
theorem c2_rotation_counterexample :
    Cuboid.rotatedPoint ⟨1, 1, 1, 0, 0, 0, Real.pi / 2, 0, Real.pi / 2, 1⟩ ⟨1, 0, 0⟩ ≠
      specPLocalClaim ⟨1, 1, 1, 0, 0, 0, Real.pi / 2, 0, Real.pi / 2, 1⟩ ⟨1, 0, 0⟩ := by
  intro h
  have hcz := congrArg Vec3.z h
  simp [Cuboid.rotatedPoint, specPLocalClaim, Vec3.add, Vec3.sub, Vec3.vecMul,
    Mat3.mulVec, Cuboid.centre, rotation_matrix_x, rotation_matrix_y, rotation_matrix_z,
    stdRx, stdRy, stdRz, Real.cos_neg, Real.sin_neg, Real.cos_pi_div_two,
    Real.sin_pi_div_two] at hcz

/-- Claim C2 amended: `calculate` evaluates the unrotated formulas at
P_local = Rx(−θx)·Ry(−θy)·Rz(−θz)·(P − centre) + centre, i.e. Qᵗ(P−centre)
+ centre with Q = Rz(θz)·Ry(θy)·Rx(θx) in standard right-handed matrices;
local vectors are taken to world frame by v ↦ Q·v and local tensors by
T ↦ Q·T·Qᵗ. -/
theorem c2_rotation_pipeline_amended : ∀ (c : Cuboid) (P : Vec3),
    c.rotatedPoint P =
      Vec3.add
        (Mat3.mulVec (stdRx (-c.x_rotation))
          (Mat3.mulVec (stdRy (-c.y_rotation))
            (Mat3.mulVec (stdRz (-c.z_rotation)) (Vec3.sub P c.centre))))
        c.centre ∧
    (∀ v : Vec3, Vec3.vecMul v c.rotationMat = Mat3.mulVec (specQ c) v) ∧
    (∀ T : Mat3, (c.rotationMat.transpose.mul T).mul c.rotationMat =
      ((specQ c).mul T).mul (specQ c).transpose) := by
  intro c P
  refine ⟨?_, fun v => ?_, fun T => ?_⟩
  · simp only [Cuboid.rotatedPoint, Vec3.add, Vec3.sub, Vec3.vecMul, Mat3.mulVec,
      rotation_matrix_x, rotation_matrix_y, rotation_matrix_z, stdRx, stdRy, stdRz,
      Real.cos_neg, Real.sin_neg, Vec3.mk.injEq]
    refine ⟨?_, ?_, ?_⟩ <;> ring
  · simp only [Cuboid.rotationMat, specQ, Vec3.vecMul, Mat3.mulVec, Mat3.mul,
      rotation_matrix_x, rotation_matrix_y, rotation_matrix_z, stdRx, stdRy, stdRz,
      Vec3.mk.injEq]
    refine ⟨?_, ?_, ?_⟩ <;> ring
  · simp only [Cuboid.rotationMat, specQ, Mat3.mul, Mat3.transpose,
      rotation_matrix_x, rotation_matrix_y, rotation_matrix_z, stdRx, stdRy, stdRz,
      Mat3.mk.injEq]
    refine ⟨?_, ?_, ?_, ?_, ?_, ?_, ?_, ?_, ?_⟩ <;> ring

/-- Claim C3: Laplace invariant.  For a sphere whose (perturbed) observation
point is strictly outside it, and for a positively-sized cuboid whose
perturbed observation point is strictly outside the axis-aligned box,
gxx + gyy + gzz is exactly zero in the real-number model. -/
theorem c3_laplace_trace :
    (∀ (s : Sphere) (P : Vec3), s.outsidePerturbed P →
      s.gxx P + s.gyy P + s.gzz P = 0) ∧
    (∀ (c : Cuboid) (P : Vec3), 0 < c.x_length → 0 < c.y_length → 0 < c.z_length →
      c.outsidePerturbed P → c.gxx P + c.gyy P + c.gzz P = 0) :=
  ⟨sphere_trace_zero, cuboid_trace_zero⟩

/-- Witness for C3: the invariant holds at a concrete sphere (unit radius at
the origin, point (2,0,0)) and a concrete cuboid (side 2 at the origin,
point (4,0,0)). -/
theorem c3_laplace_trace_witness :
    Sphere.gxx ⟨0, 0, 0, 1, 1⟩ ⟨2, 0, 0⟩ + Sphere.gyy ⟨0, 0, 0, 1, 1⟩ ⟨2, 0, 0⟩ +
        Sphere.gzz ⟨0, 0, 0, 1, 1⟩ ⟨2, 0, 0⟩ = 0 ∧
    Cuboid.gxx ⟨2, 2, 2, 0, 0, 0, 0, 0, 0, 1⟩ ⟨4, 0, 0⟩ +
        Cuboid.gyy ⟨2, 2, 2, 0, 0, 0, 0, 0, 0, 1⟩ ⟨4, 0, 0⟩ +
        Cuboid.gzz ⟨2, 2, 2, 0, 0, 0, 0, 0, 0, 1⟩ ⟨4, 0, 0⟩ = 0 := by
  constructor
  · exact c3_laplace_trace.1 ⟨0, 0, 0, 1, 1⟩ ⟨2, 0, 0⟩
      (by norm_num [Sphere.outsidePerturbed, sqsum, pdash, Sphere.centre])
  · exact c3_laplace_trace.2 ⟨2, 2, 2, 0, 0, 0, 0, 0, 0, 1⟩ ⟨4, 0, 0⟩
      (by norm_num) (by norm_num) (by norm_num)
      (by unfold Cuboid.outsidePerturbed; exact Or.inl (Or.inr (by norm_num)))

/-- Claim C4: the derived vertex list is, in order, the eight corners
V0=(−,−,−), V1=(−,−,+), V2=(−,+,+), V3=(−,+,−), V4=(+,−,−), V5=(+,+,−),
V6=(+,+,+), V7=(+,−,+) relative to the centroid, and the summation sign
vector is (+1,−1,+1,−1,−1,+1,−1,+1). -/
theorem c4_vertex_order_and_signs : ∀ c : Cuboid,
    (∀ i : Fin 8, c.vertices_axis_aligned i = specVertex c i) ∧
      (∀ i : Fin 8, Cuboid.index_order i = specSign i) :=
  fun c => ⟨fun i => by fin_cases i <;> rfl, fun i => by fin_cases i <;> rfl⟩

/-- Claim C5 counterexample: the claim derives gyz from gxy = −3C·y·z/r^(5/2)
by the cyclic permutation x→y→z→x, predicting −3C·z·x/r^(5/2); at the sphere
with radius 1, density 1, centre 0 and P = (1,2,3) the code's gyz (numerator
y·z) differs from that prediction. -/
theorem c5_sphere_cyclic_counterexample :
    Sphere.gyz ⟨0, 0, 0, 1, 1⟩ ⟨1, 2, 3⟩ ≠ specSphereGyzCyclic ⟨0, 0, 0, 1, 1⟩ ⟨1, 2, 3⟩ := by
  intro h
  simp only [Sphere.gyz, specSphereGyzCyclic, Sphere.centre, pdash, specSphereDelta,
    sqsum, specSphereRsq, Sphere.constant, specSphereC, gravG] at h
  norm_num at h
  have hD : (0:ℝ) < ((700000140000007 : ℝ) / 50000000000000) ^ ((5:ℝ)/2) :=
    Real.rpow_pos_of_pos (by norm_num) _
  rw [div_eq_mul_inv, div_eq_mul_inv] at h
  have h2 := mul_right_cancel₀ (inv_ne_zero (ne_of_gt hD)) h
  nlinarith [Real.pi_pos, h2]

/-- Claim C5 amended: with Δ = P·(1+ε) − centre, ρ = |Δ|² and
C = −(4/3)·π·G·radius³·density, the code computes gx = C·x/ρ^(3/2),
gxx = (C/ρ^(3/2))·(1 − 3x²/ρ), gxy = −3C·y·z/ρ^(5/2), with gy, gz, gyy, gzz
the cyclic images of gx and gxx; the off-diagonal tensor entries are NOT a
cyclic orbit: gxz = −3C·x·z/ρ^(5/2) and gyz = −3C·y·z/ρ^(5/2). -/
theorem c5_sphere_formulas_amended : ∀ (s : Sphere) (P : Vec3),
    s.gx P = specSphereGx s P ∧ s.gy P = specSphereGy s P ∧ s.gz P = specSphereGz s P ∧
    s.gxx P = specSphereGxx s P ∧ s.gyy P = specSphereGyy s P ∧
    s.gzz P = specSphereGzz s P ∧ s.gxy P = specSphereGxy s P ∧
    s.gxz P = specSphereGxzAmended s P ∧ s.gyz P = specSphereGyzAmended s P :=
  fun _ _ => ⟨rfl, rfl, rfl, rfl, rfl, rfl, rfl, rfl, rfl⟩

/-- Claim C6: the aggregated output per point equals the display scale factor
times the sum over all bodies of the raw per-body value at that point; for
Gz the factor is −1e8 and for Gzz it is 1e9.  Because every per-body
`calculate` scales linearly, the per-body scaling equals one scaling of the
aggregate. -/
theorem c6_scaling_aggregation :
    ∀ (objects : List GravityObject) (data_type : DataType) (point : Vec3),
      dataTotal objects data_type point =
        scaling data_type * ((objects.map fun o => o.rawPoint data_type point).sum) ∧
      dataTotal objects DataType.Gz point =
        -1e8 * ((objects.map fun o => o.rawPoint DataType.Gz point).sum) ∧
      dataTotal objects DataType.Gzz point =
        1e9 * ((objects.map fun o => o.rawPoint DataType.Gzz point).sum) :=
  fun objects data_type point =>
    ⟨dataTotal_eq objects data_type point, dataTotal_eq objects DataType.Gz point,
      dataTotal_eq objects DataType.Gzz point⟩

/-- Claim C7 counterexample: `rotation_matrix_x` does not return the standard
right-handed matrix: at θ = π/2 the (1,2) entry is sin θ = 1 where the
standard matrix has −sin θ = −1. -/
theorem c7_rotation_matrix_counterexample :
    rotation_matrix_x (Real.pi / 2) ≠ stdRx (Real.pi / 2) := by
  intro h
  have h12 := congrArg Mat3.m12 h
  simp [rotation_matrix_x, stdRx, Real.sin_pi_div_two] at h12
  norm_num at h12

/-- Claim C7 amended: for every real angle, the three functions are total and
return the TRANSPOSE of the standard right-handed rotation matrix about the
respective axis — equivalently, the standard matrix of the negated angle. -/
theorem c7_rotation_matrix_amended : ∀ θ : ℝ,
    (rotation_matrix_x θ = (stdRx θ).transpose ∧ rotation_matrix_x θ = stdRx (-θ)) ∧
    (rotation_matrix_y θ = (stdRy θ).transpose ∧ rotation_matrix_y θ = stdRy (-θ)) ∧
    (rotation_matrix_z θ = (stdRz θ).transpose ∧ rotation_matrix_z θ = stdRz (-θ)) := by
  intro θ
  refine ⟨⟨?_, ?_⟩, ⟨?_, ?_⟩, ⟨?_, ?_⟩⟩ <;>
    simp [rotation_matrix_x, rotation_matrix_y, rotation_matrix_z, stdRx, stdRy, stdRz,
      Mat3.transpose, Real.cos_neg, Real.sin_neg, Mat3.mk.injEq]

/-- Claim C8 counterexample: `new_from_lengths` does not reject degenerate
geometry; called with x_length = −1 it succeeds and the resulting cuboid
carries the non-positive length. -/
theorem c8_constructor_counterexample :
    ¬ (0 < (Cuboid.new_from_lengths (-1) 1 1 0 0 0 0 0 0 1).x_length) := by
  norm_num [Cuboid.new_from_lengths]

/-- Claim C8 amended: the constructor performs no validation at all: it
accepts every argument list, including zero or negative lengths, and stores
the arguments unchanged (no rejection, no clamping, no error value). -/
theorem c8_constructor_amended :
    ∀ xl yl zl xc yc zc xr yr zr d : ℝ,
      (Cuboid.new_from_lengths xl yl zl xc yc zc xr yr zr d).x_length = xl ∧
      (Cuboid.new_from_lengths xl yl zl xc yc zc xr yr zr d).y_length = yl ∧
      (Cuboid.new_from_lengths xl yl zl xc yc zc xr yr zr d).z_length = zl ∧
      (Cuboid.new_from_lengths xl yl zl xc yc zc xr yr zr d).x_centroid = xc ∧
      (Cuboid.new_from_lengths xl yl zl xc yc zc xr yr zr d).y_centroid = yc ∧
      (Cuboid.new_from_lengths xl yl zl xc yc zc xr yr zr d).z_centroid = zc ∧
      (Cuboid.new_from_lengths xl yl zl xc yc zc xr yr zr d).x_rotation = xr ∧
      (Cuboid.new_from_lengths xl yl zl xc yc zc xr yr zr d).y_rotation = yr ∧
      (Cuboid.new_from_lengths xl yl zl xc yc zc xr yr zr d).z_rotation = zr ∧
      (Cuboid.new_from_lengths xl yl zl xc yc zc xr yr zr d).density = d :=
  fun _ _ _ _ _ _ _ _ _ _ =>
    ⟨rfl, rfl, rfl, rfl, rfl, rfl, rfl, rfl, rfl, rfl⟩

/-- Claim C9: the gradient-tensor method `gg` returns a symmetric matrix:
the mirror entries equal the independently computed upper-triangle ones. -/
theorem c9_gg_symmetric : ∀ (c : Cuboid) (P : Vec3),
    (c.gg P).m10 = (c.gg P).m01 ∧ (c.gg P).m20 = (c.gg P).m02 ∧
      (c.gg P).m21 = (c.gg P).m12 := by
  intro c P
  refine ⟨?_, ?_, ?_⟩ <;> simp [Cuboid.gg]

/-- Claim C10: `scale_selected` preserves strict positivity of every cuboid
length and sphere radius: a drag delta is applied to a dimension only when
the result stays strictly positive. -/
theorem c10_scale_preserves_positive :
    ∀ (view : PlotView) (dx dy : ℝ) (objects : List ModelObject),
      (∀ o ∈ objects, posDims o.object) →
      ∀ o ∈ scaleSelected view dx dy objects, posDims o.object := by
  intro view dx dy objects h o ho
  rw [scaleSelected, List.mem_map] at ho
  obtain ⟨p, hp, rfl⟩ := ho
  have hpd := h p hp
  unfold scaleSelectedObject
  split_ifs with hsel
  · cases hobj : p.object with
    | cuboid c =>
      rw [hobj] at hpd
      obtain ⟨h1, h2, h3⟩ := hpd
      exact scaleCuboid_pos view dx dy c h1 h2 h3
    | sphere s =>
      rw [hobj] at hpd
      exact scaleSphere_pos dy s hpd
  · exact hpd

/-- Witness for C10: applying a large negative drag to a selected unit cube
keeps all dimensions strictly positive. -/
theorem c10_scale_preserves_positive_witness :
    posDims (scaleSelectedObject PlotView.XY (-5) (-5)
      ⟨GravityObject.cuboid ⟨1, 1, 1, 0, 0, 0, 0, 0, 0, 1⟩, true⟩).object := by
  refine c10_scale_preserves_positive PlotView.XY (-5) (-5)
    [⟨GravityObject.cuboid ⟨1, 1, 1, 0, 0, 0, 0, 0, 0, 1⟩, true⟩] ?_ _ ?_
  · intro o ho
    rw [List.mem_singleton] at ho
    subst ho
    exact ⟨by norm_num, by norm_num, by norm_num⟩
  · rw [scaleSelected, List.map_singleton, List.mem_singleton]
